import Mathlib

/-!
Shallow embedding of `src/gui_app.py` (PDFAnalyze desktop client).

The file models, directly from the source:
- the worker thread bodies `KBValidateWorker.run`, `AskWorker.run`,
  `UploadWorker.run`, `SyncWorker.run` as pure functions from the
  configuration captured at dispatch time plus the (oracle-supplied)
  behaviour of the external managed services to the sequence of Qt
  signal emissions they produce;
- the environment-variable writes performed by the worker bodies, as
  functions on an explicit environment state;
- the UI slot handlers `on_validate_kb`, `on_ask`, `on_upload_files`,
  `on_sync_kb` as functions from the current UI input fields to a
  dispatch outcome (blocking notice shown and no worker created, or a
  worker created with the captured parameters).

Python string falsiness (`x or y`) and `str(None) = "None"` are modelled
explicitly (`pyTruthy`, `pyOr`, `pyStr`).
-/

namespace GuiApp

/-- Python `str(x)` applied to an optional string: `None` prints as the
literal text `None`. -/
def pyStr : Option String → String
  | none => "None"
  | some s => s

/-- Python truthiness of an optional string: `None` and the empty string
are falsy, every other string is truthy. -/
def pyTruthy : Option String → Bool
  | none => false
  | some s => s != ""

/-- Python `a or b` on optional strings. -/
def pyOr (a b : Option String) : Option String :=
  if pyTruthy a then a else b

/-- Python `s.strip()`: drop leading and trailing whitespace. -/
def pyStrip (s : String) : String :=
  String.mk
    (((s.data.dropWhile Char.isWhitespace).reverse.dropWhile
        Char.isWhitespace).reverse)

/-- A Qt signal emission observed from a worker thread
(`progress`, `finished`, `failed` of the worker classes). -/
inductive Signal where
  | progress (msg : String)
  | finished (msg : String)
  | failed (msg : String)
  deriving DecidableEq, Repr

/-- One element of the `dataSourceSummaries` list returned by
`list_data_sources`; the code reads the dictionary keys `name` and
`dataSourceId` with `.get`, so both are optional here. -/
structure DSSummary where
  name : Option String
  dataSourceId : Option String
  deriving DecidableEq, Repr

/-- Outcome of the two service calls made by `KBValidateWorker.run`
(`get_knowledge_base` and `list_data_sources`); an oracle for the
external managed service. `clientError` is a `botocore` `ClientError`
carrying an optional service error code (`e.response["Error"]["Code"]`,
read with `.get`) and the exception text; `otherError` is any other
exception with its text and formatted traceback. -/
inductive KBServiceOutcome where
  | ok (status : Option String) (summaries : List DSSummary)
  | clientError (code : Option String) (msg : String)
  | otherError (msg : String) (trace : String)
  deriving DecidableEq, Repr

/-- The per-data-source line built by `KBValidateWorker.run`:
`name = s.get("name") or s.get("dataSourceId")` followed by
`f" - {name}"`. -/
def dsLine (s : DSSummary) : String :=
  " - " ++ pyStr (pyOr s.name s.dataSourceId)

/-- The list `msg` of lines assembled by `KBValidateWorker.run` on the
success path, before `"\n".join(msg)`. -/
def kbValidateSuccessLines (kb_id : String) (status : Option String)
    (summaries : List DSSummary) : List String :=
  ("[KB] ID=" ++ kb_id ++ ", 상태=" ++ pyStr status) ::
    (if summaries.isEmpty then
      ["[KB] 데이터 소스: 없음 (S3 데이터 소스 추가 필요)"]
    else
      ("[KB] 데이터 소스: " ++ toString summaries.length ++ "개") ::
        summaries.map dsLine)

/-- `KBValidateWorker.run` as a function of the captured configuration
and the service outcome, returning the single signal it emits.  The
region only selects the client session (`session_kwargs`) and does not
influence the emitted text. -/
def kbValidateRun (kb_id : String) (region : Option String)
    (svc : KBServiceOutcome) : Signal :=
  match region with
  | _ =>
    match svc with
    | KBServiceOutcome.ok status summaries =>
        Signal.finished
          (String.intercalate "\n" (kbValidateSuccessLines kb_id status summaries))
    | KBServiceOutcome.clientError code msg =>
        Signal.failed ("[KB 점검 실패] " ++ pyStr code ++ ": " ++ msg)
    | KBServiceOutcome.otherError msg trace =>
        Signal.failed ("[KB 점검 실패] " ++ msg ++ "\n" ++ trace)

/-- The tools importable by `AskWorker.run` from `strands_tools`. -/
inductive Tool where
  | retrieve
  | http_request
  deriving DecidableEq, Repr

/-- The tool list built by `AskWorker.run`:
`tools = [retrieve]; if self.allow_web: tools.append(http_request)`. -/
def askTools (allow_web : Bool) : List Tool :=
  let tools := [Tool.retrieve]
  if allow_web then tools ++ [Tool.http_request] else tools

/-- The constructor arguments `AskWorker.run` passes to `Agent`. -/
structure AgentConfig where
  model : String
  system_prompt : String
  tools : List Tool
  deriving DecidableEq, Repr

/-- The `Agent(...)` configuration built by `AskWorker.run`.
`paperAgentPrompt` stands for `PAPER_AGENT_PROMPT`, a fixed constant
imported from `kb_for_rrag`; its text does not affect any claim, so it
is a parameter here. -/
def askAgentConfig (paperAgentPrompt : String) (allow_web : Bool) : AgentConfig :=
  { model := "us.amazon.nova-lite-v1:0"
    system_prompt := paperAgentPrompt
    tools := askTools allow_web }

/-- The process environment (`os.environ`), as a partial map from
variable names to values. -/
def Env : Type := String → Option String

/-- `os.environ[k] = v`. -/
def envSet (e : Env) (k v : String) : Env :=
  fun x => if x = k then some v else e x

/-- The `os.environ` writes performed by `AskWorker.run` (lines 101-105):
`KNOWLEDGE_BASE_ID` is always written; when the captured region is
truthy, `AWS_REGION` and `AWS_DEFAULT_REGION` are written as well. -/
def askEnvEffect (kb_id : String) (region : Option String) (e : Env) : Env :=
  let e1 := envSet e "KNOWLEDGE_BASE_ID" kb_id
  match region with
  | some r =>
      if r != "" then
        envSet (envSet e1 "AWS_REGION" r) "AWS_DEFAULT_REGION" r
      else e1
  | none => e1

/-- `KBValidateWorker.run` performs no write to `os.environ`. -/
def kbValidateEnvEffect (e : Env) : Env := e

/-- `UploadWorker.run` performs no write to `os.environ`. -/
def uploadEnvEffect (e : Env) : Env := e

/-- `SyncWorker.run` performs no write to `os.environ`. -/
def syncEnvEffect (e : Env) : Env := e

end GuiApp

namespace GuiApp

/-- A Python exception as observed by an `except` block: its text
(`str(e)`) and its formatted traceback (`traceback.format_exc()`). -/
structure PyExc where
  msg : String
  trace : String
  deriving DecidableEq, Repr

/-- The externally visible actions of `UploadWorker.run`: a signal
emission, or a call into `uploader.upload_pdf` for a given local file
(the only operation that touches the object store; the worker performs
no deletion or other store mutation). -/
inductive UEvent where
  | emit (s : Signal)
  | attempt (file : String)
  deriving DecidableEq, Repr

/-- The per-file start message `f"[업로드] {f} ..."`. -/
def uploadStartMsg (f : String) : String := "[업로드] " ++ f ++ " ..."

/-- The per-file completion message `f"[완료] {uri}"`. -/
def uploadDoneMsg (uri : String) : String := "[완료] " ++ uri

/-- The failure message `f"[업로드 실패] {e}\n{traceback.format_exc()}"`. -/
def uploadFailMsg (e : PyExc) : String :=
  "[업로드 실패] " ++ e.msg ++ "\n" ++ e.trace

/-- The summary message `f"총 {len(uploaded)}개 업로드 완료"`. -/
def uploadSummaryMsg (n : Nat) : String :=
  "총 " ++ toString n ++ "개 업로드 완료"

/-- The loop of `UploadWorker.run` over the remaining files, carrying
the `uploaded` accumulator of URIs returned so far.  `transfer` is the
oracle for `uploader.upload_pdf` (for the bucket/prefix captured at
dispatch): it returns the stored-object URI or raises.  Each iteration
emits the start message, calls the uploader, and on success emits the
completion message and appends the URI; the first raised exception
leaves the loop, and the `except` block emits a single `failed`
signal. -/
def uploadSteps (transfer : String → Except PyExc String) :
    List String → List String → List UEvent
  | [], uploaded =>
      [UEvent.emit (Signal.finished (uploadSummaryMsg uploaded.length))]
  | f :: rest, uploaded =>
      UEvent.emit (Signal.progress (uploadStartMsg f)) ::
      UEvent.attempt f ::
      (match transfer f with
       | Except.ok uri =>
           UEvent.emit (Signal.progress (uploadDoneMsg uri)) ::
             uploadSteps transfer rest (uploaded ++ [uri])
       | Except.error e =>
           [UEvent.emit (Signal.failed (uploadFailMsg e))])

/-- `UploadWorker.run` for a captured file list (the `PDFUploader`
construction itself is assumed to succeed; an exception there would
produce the same single `failed` emission with no progress signals). -/
def uploadRun (transfer : String → Except PyExc String)
    (files : List String) : List UEvent :=
  uploadSteps transfer files []

/-- Modelled from the spec: `pdf_uploader.PDFUploader.sync_knowledge_base`
is not under `src/`.  Per the spec it issues a single re-index request
to the managed service and returns as soon as the request is accepted —
not when re-indexing finishes — and a failure surfaces as an exception.
So its outcome is either acceptance or an exception. -/
inductive SyncOutcome where
  | accepted
  | error (e : PyExc)
  deriving DecidableEq, Repr

/-- `SyncWorker.run` as a function of the captured knowledge-base id and
the outcome of the single re-index request; the kb id is only forwarded
to the service and does not influence the emitted text. -/
def syncRun (kb_id : String) (svc : SyncOutcome) : Signal :=
  match kb_id with
  | _ =>
    match svc with
    | SyncOutcome.accepted =>
        Signal.finished "KB 동기화 작업 시작 요청 완료 (완료까지 수 분 소요)"
    | SyncOutcome.error e =>
        Signal.failed ("[동기화 실패] " ++ e.msg ++ "\n" ++ e.trace)

/-- The UI input fields read by the slot handlers.  `ed_pfx` models the
source's `ed_prefix` text field (the S3 key prefix). -/
structure UiInput where
  ed_region : String
  ed_kb : String
  ed_bucket : String
  ed_pfx : String
  cb_allow_web : Bool
  ed_prompt : String
  list_files : List String
  deriving DecidableEq, Repr

/-- A worker constructed and started by a slot handler, with the
parameters captured at dispatch time. `pfx` models the `prefix`
constructor argument of `UploadWorker`. -/
inductive WorkerSpec where
  | validate (kb_id : String) (region : Option String)
  | ask (kb_id : String) (region : Option String) (prompt : String) (allow_web : Bool)
  | upload (bucket : String) (kb_id : Option String) (pfx : String) (files : List String)
  | sync (kb_id : String)
  deriving DecidableEq, Repr

/-- Outcome of a slot handler: either a blocking `QMessageBox` notice is
shown and the handler returns without constructing a worker, or a
worker is constructed and started. -/
inductive DispatchOutcome where
  | blocked (notice : String)
  | started (w : WorkerSpec)
  deriving DecidableEq, Repr

/-- True when the handler showed a blocking notice and created no worker. -/
def DispatchOutcome.isBlocked : DispatchOutcome → Bool
  | DispatchOutcome.blocked _ => true
  | DispatchOutcome.started _ => false

/-- Python `s or None` after `.strip()`: empty becomes `None`. -/
def strToOpt (s : String) : Option String :=
  if s = "" then none else some s

/-- The slot `MainWindow.on_validate_kb`. -/
def on_validate_kb (ui : UiInput) : DispatchOutcome :=
  let kb_id := pyStrip ui.ed_kb
  let region := strToOpt (pyStrip ui.ed_region)
  if kb_id = "" then
    DispatchOutcome.blocked "Knowledge Base ID를 입력하세요."
  else
    DispatchOutcome.started (WorkerSpec.validate kb_id region)

/-- The slot `MainWindow.on_ask`. -/
def on_ask (ui : UiInput) : DispatchOutcome :=
  let kb_id := pyStrip ui.ed_kb
  let region := strToOpt (pyStrip ui.ed_region)
  let prompt := pyStrip ui.ed_prompt
  let allow_web := ui.cb_allow_web
  if kb_id = "" then
    DispatchOutcome.blocked "Knowledge Base ID를 입력하세요."
  else if prompt = "" then
    DispatchOutcome.blocked "질문을 입력하세요."
  else
    DispatchOutcome.started (WorkerSpec.ask kb_id region prompt allow_web)

/-- The slot `MainWindow.on_upload_files`. -/
def on_upload_files (ui : UiInput) : DispatchOutcome :=
  let bucket := pyStrip ui.ed_bucket
  let kb_id := strToOpt (pyStrip ui.ed_kb)
  let pfx := if pyStrip ui.ed_pfx = "" then "documents/" else pyStrip ui.ed_pfx
  if bucket = "" then
    DispatchOutcome.blocked "S3 Bucket을 입력하세요."
  else if ui.list_files = [] then
    DispatchOutcome.blocked "업로드할 PDF 파일을 추가하세요."
  else
    DispatchOutcome.started (WorkerSpec.upload bucket kb_id pfx ui.list_files)

/-- The slot `MainWindow.on_sync_kb`. -/
def on_sync_kb (ui : UiInput) : DispatchOutcome :=
  let kb_id := pyStrip ui.ed_kb
  if kb_id = "" then
    DispatchOutcome.blocked "Knowledge Base ID를 입력하세요."
  else
    DispatchOutcome.started (WorkerSpec.sync kb_id)

end GuiApp

namespace GuiApp

/-- The per-file event block produced for a successfully transferred
file: start emission, uploader call, completion emission. -/
def okBlock (uriFn : String → String) (f : String) : List UEvent :=
  [UEvent.emit (Signal.progress (uploadStartMsg f)), UEvent.attempt f,
   UEvent.emit (Signal.progress (uploadDoneMsg (uriFn f)))]

theorem uploadSteps_append_ok (transfer : String → Except PyExc String)
    (uriFn : String → String) (pre rest uploaded : List String)
    (hpre : ∀ f ∈ pre, transfer f = Except.ok (uriFn f)) :
    uploadSteps transfer (pre ++ rest) uploaded =
      (pre.map (okBlock uriFn)).flatten
        ++ uploadSteps transfer rest (uploaded ++ pre.map uriFn) := by
  induction pre generalizing uploaded with
  | nil => simp [uploadSteps]
  | cons f pre ih =>
      have hf : transfer f = Except.ok (uriFn f) := hpre f (by simp)
      have hrest : ∀ g ∈ pre, transfer g = Except.ok (uriFn g) :=
        fun g hg => hpre g (by simp [hg])
      simp only [List.cons_append, uploadSteps, hf, List.map_cons, List.flatten,
        okBlock, List.append_eq]
      rw [ih (uploaded ++ [uriFn f]) hrest]
      simp [List.append_assoc]

/-- C3: when every transfer in the captured file list succeeds,
`UploadWorker.run` produces, in the order of the input list and for each
file in turn, a progress-start emission, the uploader call, and a
progress-complete emission (so exactly N starts and N completes,
interleaved per file), followed by exactly one summary `finished`
emission reporting the count N. -/
theorem C3_upload_all_ok (transfer : String → Except PyExc String)
    (uriFn : String → String) (files : List String)
    (h : ∀ f ∈ files, transfer f = Except.ok (uriFn f)) :
    uploadRun transfer files =
      (files.map (okBlock uriFn)).flatten
        ++ [UEvent.emit (Signal.finished (uploadSummaryMsg files.length))] := by
  have hh := uploadSteps_append_ok transfer uriFn files [] [] h
  unfold uploadRun
  rw [List.append_nil] at hh
  rw [hh]
  simp [uploadSteps]

/-- C3 witness at a concrete two-file list with an always-succeeding
transfer oracle. -/
theorem C3_upload_all_ok_witness :
    uploadRun (fun f => Except.ok ("s3://x/" ++ f)) ["a.pdf", "b.pdf"] =
      ((["a.pdf", "b.pdf"].map (okBlock (fun f => "s3://x/" ++ f))).flatten
        ++ [UEvent.emit (Signal.finished (uploadSummaryMsg 2))]) :=
  C3_upload_all_ok (fun f => Except.ok ("s3://x/" ++ f))
    (fun f => "s3://x/" ++ f) ["a.pdf", "b.pdf"] (fun _ _ => rfl)

/-- C2: when the transfers of the files before `fk` succeed and the
transfer of `fk` raises, `UploadWorker.run` produces the full
start/attempt/complete block for each earlier file, then the start
emission and uploader call for `fk`, then exactly one `failed` emission
carrying the originating error detail — and nothing else: no emission
for, and no uploader call on, any file after `fk`, and no store
operation beyond the attempts already listed (no rollback). -/
theorem C2_upload_fail_at_k (transfer : String → Except PyExc String)
    (uriFn : String → String) (pre : List String) (fk : String)
    (post : List String) (e : PyExc)
    (hpre : ∀ f ∈ pre, transfer f = Except.ok (uriFn f))
    (hfk : transfer fk = Except.error e) :
    uploadRun transfer (pre ++ fk :: post) =
      (pre.map (okBlock uriFn)).flatten
        ++ [UEvent.emit (Signal.progress (uploadStartMsg fk)), UEvent.attempt fk,
            UEvent.emit (Signal.failed (uploadFailMsg e))] := by
  have hh := uploadSteps_append_ok transfer uriFn pre (fk :: post) [] hpre
  unfold uploadRun
  rw [hh]
  simp [uploadSteps, hfk]

/-- C2 witness: three files, the second transfer raises. -/
theorem C2_upload_fail_at_k_witness :
    uploadRun
        (fun f => if f = "b.pdf" then Except.error (PyExc.mk "boom" "tb")
                  else Except.ok ("s3://x/" ++ f))
        (["a.pdf"] ++ "b.pdf" :: ["c.pdf"]) =
      ((["a.pdf"].map (okBlock (fun f => "s3://x/" ++ f))).flatten
        ++ [UEvent.emit (Signal.progress (uploadStartMsg "b.pdf")),
            UEvent.attempt "b.pdf",
            UEvent.emit (Signal.failed (uploadFailMsg (PyExc.mk "boom" "tb")))]) :=
  C2_upload_fail_at_k
    (fun f => if f = "b.pdf" then Except.error (PyExc.mk "boom" "tb")
              else Except.ok ("s3://x/" ++ f))
    (fun f => "s3://x/" ++ f) ["a.pdf"] "b.pdf" ["c.pdf"] (PyExc.mk "boom" "tb")
    (by intro f hf; simp only [List.mem_singleton] at hf; subst hf; rfl)
    rfl

/-- C1: the tool list passed to the reasoning agent by `AskWorker.run`
contains `http_request` exactly when the captured allow-web flag is
true, and always contains `retrieve`. -/
theorem C1_capability_set (paperAgentPrompt : String) (allow_web : Bool) :
    ((askAgentConfig paperAgentPrompt allow_web).tools.contains Tool.http_request
        = allow_web)
    ∧ (askAgentConfig paperAgentPrompt allow_web).tools.contains Tool.retrieve
        = true := by
  cases allow_web <;> exact ⟨rfl, rfl⟩

end GuiApp

namespace GuiApp

/-- C4: for each operation kind, an empty required field (after
stripping) makes the slot handler show a blocking notice and return
without constructing a background worker: the knowledge-base id for
validate, ask and sync; the question text for ask; the bucket — or an
empty selected-file list — for upload. -/
theorem C4_required_fields (ui : UiInput) :
    (pyStrip ui.ed_kb = "" →
      (on_validate_kb ui).isBlocked = true
        ∧ (on_ask ui).isBlocked = true
        ∧ (on_sync_kb ui).isBlocked = true)
    ∧ (pyStrip ui.ed_prompt = "" → (on_ask ui).isBlocked = true)
    ∧ (pyStrip ui.ed_bucket = "" → (on_upload_files ui).isBlocked = true)
    ∧ (ui.list_files = [] → (on_upload_files ui).isBlocked = true) := by
  refine ⟨fun h => ⟨?_, ?_, ?_⟩, fun h => ?_, fun h => ?_, fun h => ?_⟩
  · simp [on_validate_kb, h, DispatchOutcome.isBlocked]
  · simp [on_ask, h, DispatchOutcome.isBlocked]
  · simp [on_sync_kb, h, DispatchOutcome.isBlocked]
  · by_cases hkb : pyStrip ui.ed_kb = "" <;>
      simp [on_ask, h, hkb, DispatchOutcome.isBlocked]
  · simp [on_upload_files, h, DispatchOutcome.isBlocked]
  · by_cases hb : pyStrip ui.ed_bucket = "" <;>
      simp [on_upload_files, h, hb, DispatchOutcome.isBlocked]

/-- C4 witness: with every input field empty, all four slot handlers
block. -/
theorem C4_required_fields_witness :
    (on_validate_kb (UiInput.mk "" "" "" "" false "" [])).isBlocked = true
    ∧ (on_ask (UiInput.mk "" "" "" "" false "" [])).isBlocked = true
    ∧ (on_sync_kb (UiInput.mk "" "" "" "" false "" [])).isBlocked = true
    ∧ (on_upload_files (UiInput.mk "" "" "" "" false "" [])).isBlocked = true := by
  have h := C4_required_fields (UiInput.mk "" "" "" "" false "" [])
  exact ⟨(h.1 rfl).1, (h.1 rfl).2.1, (h.1 rfl).2.2, h.2.2.2 rfl⟩

/-- C5: a health-check failure recognized as a `ClientError` is emitted
as a single `failed` signal rendering the service-defined error code
and the exception text; any other exception is emitted as a single
`failed` signal rendering its message and the full diagnostic
traceback.  In both cases the emitted signal is the worker's entire
observable behaviour: nothing is retried or remediated. -/
theorem C5_failure_rendering (kb_id : String) (region : Option String)
    (code : Option String) (cmsg emsg trace : String) :
    kbValidateRun kb_id region (KBServiceOutcome.clientError code cmsg)
      = Signal.failed ("[KB 점검 실패] " ++ pyStr code ++ ": " ++ cmsg)
    ∧ kbValidateRun kb_id region (KBServiceOutcome.otherError emsg trace)
      = Signal.failed ("[KB 점검 실패] " ++ emsg ++ "\n" ++ trace) :=
  ⟨rfl, rfl⟩

/-- C6: the health-check summary always starts with the id/status
header; with zero registered data sources it contains the explicit
"none registered" line rather than omitting the section, and with a
non-empty list it contains the count line followed by one line per
data source. -/
theorem C6_data_source_section (kb_id : String) (region : Option String)
    (status : Option String) (summaries : List DSSummary) :
    kbValidateRun kb_id region (KBServiceOutcome.ok status summaries)
      = Signal.finished
          (String.intercalate "\n" (kbValidateSuccessLines kb_id status summaries))
    ∧ (summaries = [] →
        kbValidateSuccessLines kb_id status summaries
          = [("[KB] ID=" ++ kb_id ++ ", 상태=" ++ pyStr status),
             "[KB] 데이터 소스: 없음 (S3 데이터 소스 추가 필요)"])
    ∧ (summaries ≠ [] →
        kbValidateSuccessLines kb_id status summaries
          = ("[KB] ID=" ++ kb_id ++ ", 상태=" ++ pyStr status)
              :: ("[KB] 데이터 소스: " ++ toString summaries.length ++ "개")
              :: summaries.map dsLine) := by
  refine ⟨rfl, fun h => ?_, fun h => ?_⟩
  · subst h; rfl
  · cases summaries with
    | nil => exact absurd rfl h
    | cons s rest => rfl

/-- C6 witness: concrete runs with zero and with one data source. -/
theorem C6_data_source_section_witness :
    kbValidateSuccessLines "KB1" (some "ACTIVE") []
      = [("[KB] ID=" ++ "KB1" ++ ", 상태=" ++ pyStr (some "ACTIVE")),
         "[KB] 데이터 소스: 없음 (S3 데이터 소스 추가 필요)"]
    ∧ kbValidateSuccessLines "KB1" (some "ACTIVE")
          [DSSummary.mk (some "ds-one") (some "DSID1")]
      = ("[KB] ID=" ++ "KB1" ++ ", 상태=" ++ pyStr (some "ACTIVE"))
          :: ("[KB] 데이터 소스: "
                ++ toString (List.length [DSSummary.mk (some "ds-one") (some "DSID1")])
                ++ "개")
          :: [DSSummary.mk (some "ds-one") (some "DSID1")].map dsLine := by
  have h1 := C6_data_source_section "KB1" (some "us-east-1") (some "ACTIVE") []
  have h2 := C6_data_source_section "KB1" (some "us-east-1") (some "ACTIVE")
    [DSSummary.mk (some "ds-one") (some "DSID1")]
  exact ⟨h1.2.1 rfl, h2.2.2 (by simp)⟩

end GuiApp

namespace GuiApp

/-- C7 counterexample: the claim that an operation mutates nothing
visible to another operation is false — at the concrete dispatch of the
ask operation with knowledge base `KB1` and region `us-east-1` from an
empty process environment, `AskWorker.run` changes the value of the
process-global environment variable `AWS_REGION`, which a concurrently
running worker (for example a validate worker whose captured region is
empty, whose service client resolves its region from the environment)
can observe. -/
theorem C7_env_mutation_counterexample :
    askEnvEffect "KB1" (some "us-east-1") (fun _ => none) "AWS_REGION"
      ≠ (fun _ : String => none) "AWS_REGION" := by
  simp [askEnvEffect, envSet]

/-- C7 amended: the validate, upload and sync workers mutate no
process-global state, and the ask worker's only mutation visible to
other operations is writing the environment variables
`KNOWLEDGE_BASE_ID`, `AWS_REGION` and `AWS_DEFAULT_REGION`; every other
environment key is left unchanged. -/
theorem C7_env_frame (kb_id : String) (region : Option String) (e : Env)
    (k : String) (h1 : k ≠ "KNOWLEDGE_BASE_ID") (h2 : k ≠ "AWS_REGION")
    (h3 : k ≠ "AWS_DEFAULT_REGION") :
    askEnvEffect kb_id region e k = e k
    ∧ kbValidateEnvEffect e = e
    ∧ uploadEnvEffect e = e
    ∧ syncEnvEffect e = e := by
  refine ⟨?_, rfl, rfl, rfl⟩
  cases region with
  | none => simp [askEnvEffect, envSet, h1]
  | some r =>
      by_cases hr : r = "" <;>
        simp [askEnvEffect, envSet, hr, h1, h2, h3]

/-- C7 amended witness: a key unrelated to the three written variables
is unchanged by the ask dispatch, and the other three workers leave the
environment untouched. -/
theorem C7_env_frame_witness :
    askEnvEffect "KB1" (some "us-east-1") (fun _ => none) "HOME"
        = (fun _ : String => none) "HOME"
    ∧ kbValidateEnvEffect (fun _ => none) = (fun _ : String => none)
    ∧ uploadEnvEffect (fun _ => none) = (fun _ : String => none)
    ∧ syncEnvEffect (fun _ => none) = (fun _ : String => none) :=
  C7_env_frame "KB1" (some "us-east-1") (fun _ => none) "HOME"
    (by decide) (by decide) (by decide)

/-- C8: `SyncWorker.run` consults the single re-index request exactly
once (no retry); when the request is accepted it emits one `finished`
signal stating only that the request was accepted, with the caveat that
completion may take minutes, and when the request raises it emits one
`failed` signal carrying the raw error detail and traceback. -/
theorem C8_sync_fire_and_forget (kb_id : String) (e : PyExc) :
    syncRun kb_id SyncOutcome.accepted
      = Signal.finished "KB 동기화 작업 시작 요청 완료 (완료까지 수 분 소요)"
    ∧ syncRun kb_id (SyncOutcome.error e)
      = Signal.failed ("[동기화 실패] " ++ e.msg ++ "\n" ++ e.trace) :=
  ⟨rfl, rfl⟩

/-- C9: two health-check invocations with the same knowledge-base id
and region for which the service returns identical status and
data-source responses emit character-for-character identical summary
texts. -/
theorem C9_healthcheck_idempotent (kb1 kb2 : String)
    (r1 r2 st1 st2 : Option String) (ds1 ds2 : List DSSummary)
    (hkb : kb1 = kb2) (hr : r1 = r2) (hst : st1 = st2) (hds : ds1 = ds2) :
    kbValidateRun kb1 r1 (KBServiceOutcome.ok st1 ds1)
      = kbValidateRun kb2 r2 (KBServiceOutcome.ok st2 ds2) := by
  subst hkb; subst hr; subst hst; subst hds; rfl

/-- C9 witness at a concrete repeated invocation. -/
theorem C9_healthcheck_idempotent_witness :
    kbValidateRun "KB1" (some "us-east-1")
        (KBServiceOutcome.ok (some "ACTIVE")
          [DSSummary.mk (some "ds-one") (some "DSID1")])
      = kbValidateRun "KB1" (some "us-east-1")
        (KBServiceOutcome.ok (some "ACTIVE")
          [DSSummary.mk (some "ds-one") (some "DSID1")]) :=
  C9_healthcheck_idempotent "KB1" "KB1" (some "us-east-1") (some "us-east-1")
    (some "ACTIVE") (some "ACTIVE")
    [DSSummary.mk (some "ds-one") (some "DSID1")]
    [DSSummary.mk (some "ds-one") (some "DSID1")] rfl rfl rfl rfl

/-- C10: the line rendered for a data-source summary shows its `name`
field when that field is present and non-empty; when `name` is absent
or the empty string, the line falls back to the summary's
`dataSourceId`. -/
theorem C10_name_fallback (s : DSSummary) (n d : String) :
    (s.name = some n → n ≠ "" → dsLine s = " - " ++ n)
    ∧ ((s.name = none ∨ s.name = some "") → s.dataSourceId = some d →
        dsLine s = " - " ++ d) := by
  constructor
  · intro hn hne
    simp [dsLine, pyOr, pyTruthy, pyStr, hn, hne]
  · rintro (hn | hn) hd <;> simp [dsLine, pyOr, pyTruthy, pyStr, hn, hd]

/-- C10 witness: a summary with a non-empty name, one with no name, and
one with an empty name. -/
theorem C10_name_fallback_witness :
    dsLine (DSSummary.mk (some "my-ds") (some "DSID1")) = " - " ++ "my-ds"
    ∧ dsLine (DSSummary.mk none (some "DSID1")) = " - " ++ "DSID1"
    ∧ dsLine (DSSummary.mk (some "") (some "DSID2")) = " - " ++ "DSID2" :=
  ⟨(C10_name_fallback (DSSummary.mk (some "my-ds") (some "DSID1"))
      "my-ds" "x").1 rfl (by decide),
   (C10_name_fallback (DSSummary.mk none (some "DSID1")) "x" "DSID1").2
      (Or.inl rfl) rfl,
   (C10_name_fallback (DSSummary.mk (some "") (some "DSID2")) "x" "DSID2").2
      (Or.inr rfl) rfl⟩

end GuiApp
